import Mathlib

/-!
Verification of the agrenad ordering backend against its specification.

The repository contains several near-duplicate server variants; the
definitions below embed, per variant, the data layer and the HTTP handler
cores that the claims are about:

* `V1`  — src/unnamed/part_001 (bcrypt pins, persisted sessions,
          snapshot stored with the department records at its top level);
* `V0B` — src/unnamed/part_000 lines 95–568 (bcrypt pins, persisted
          sessions, snapshot wrapped in a `commandes` object);
* `V0C` — src/unnamed/part_000 lines 569–986 (scope pins, sha256 digest,
          in-memory sessions, login body exposes the matched scope);
* `V0D` — src/unnamed/part_000 lines 987–1474 (bcrypt pins, persisted
          sessions, `extractPayload` double-nest tolerance, never-null
          validated snapshot);
* `SJ`  — src/server.js (owner/chef roles, JWT tokens, per-file stores);
* `V2`  — src/unnamed/part_002 (plain per-service records, no auth).

JavaScript dynamic values are embedded as `RawVal` (request bodies) and
`JVal` (JSON responses); a JS number is carried together with its
`String(v)` rendering.  Cryptographic primitives (`bcrypt.compare`,
`bcrypt.hash`, sha256, random token generation) are passed in as explicit
function or string parameters, making the handlers' nondeterminism and
use of crypto explicit while keeping every definition executable.
-/

/-- JSON value produced by the server in responses. -/
inductive JVal where
  | jnull
  | jbool (b : Bool)
  | jstr (s : String)
  | jobj (fields : List (String × JVal))

/-- Dynamic JavaScript value as it can occur in a parsed request body:
`undefined`, `null`, booleans, numbers (carried with their `String(v)`
rendering), strings, arrays and objects. -/
inductive RawVal where
  | vundef
  | vnull
  | vbool (b : Bool)
  | vnum (stringOf : String)
  | vstr (s : String)
  | varr (elems : List RawVal)
  | vobj (fields : List (String × RawVal))

/-- Association-list lookup with JS property-access semantics (first
occurrence wins; JS objects cannot hold duplicate keys). -/
def alookup (k : String) : List (String × α) → Option α
  | [] => none
  | (k', v) :: t => if k' = k then some v else alookup k t

/-- JS assignment `obj[k] = v`: replace in place if the key exists,
otherwise append. -/
def assocSet (k : String) (v : α) : List (String × α) → List (String × α)
  | [] => [(k, v)]
  | (k', v') :: t => if k' = k then (k, v) :: t else (k', v') :: assocSet k v t

/-- JS truthiness of a dynamic value (`Boolean(v)`). -/
def RawVal.isTruthy : RawVal → Bool
  | .vundef => false
  | .vnull => false
  | .vbool b => b
  | .vnum r => !(r == "0" || r == "NaN")
  | .vstr s => !(s == "")
  | .varr _ => true
  | .vobj _ => true

/-- The test `v && typeof v === "object"` used throughout the sources:
true exactly for objects and arrays (`null` has typeof object but is
falsy). -/
def RawVal.isObjLike : RawVal → Bool
  | .vobj _ => true
  | .varr _ => true
  | _ => false

/-- JS property access `v.k` on a dynamic value; `none` models
`undefined`. -/
def RawVal.get (k : String) : RawVal → Option RawVal
  | .vobj fields => alookup k fields
  | _ => none

/-- JS `a || b` over an optional dynamic value (`undefined` and falsy
values fall through). -/
def jsOr (a : Option RawVal) (b : RawVal) : RawVal :=
  match a with
  | some v => if v.isTruthy then v else b
  | none => b

/-- JS `String.prototype.trim`: drop leading and trailing whitespace.
Defined over the character list so that it is fully computable. -/
def jsTrim (s : String) : String :=
  ⟨((s.data.dropWhile Char.isWhitespace).reverse.dropWhile Char.isWhitespace).reverse⟩

/-- The regular-expression test from all variants: the string consists of
exactly four decimal digits. -/
def isFourDigits (s : String) : Bool :=
  s.length == 4 && s.toList.all Char.isDigit

/-- Member lookup on a JSON response object. -/
def jLookup (k : String) : JVal → Option JVal
  | .jobj fields => alookup k fields
  | _ => none

/-- Erase one member from a JSON response object (used to compare
response bodies up to the opaque token). -/
def stripKey (k : String) : JVal → JVal
  | .jobj fields => .jobj (fields.filter (fun p => p.1 ≠ k))
  | v => v

example : (RawVal.vobj [("a", .vstr "x")]).isObjLike = true := rfl
example : jLookup "a" (.jobj [("a", .jnull)]) = some .jnull := rfl

/-! ## Shared record shapes

The bcrypt-based variants (`part_000` B/D, `part_001`) persist the same
record shapes inside one JSON document, so they are defined once. -/

/-- Flat per-department order mapping after normalization: item name to
quantity-as-string. -/
abbrev Fields := List (String × String)

/-- One department's record `{ donnees, updatedAt }`. `updatedAt` is
`none` when the JSON member is `null` or absent. -/
structure Commande where
  donnees : Fields
  updatedAt : Option String
deriving DecidableEq, Repr

/-- Response of `GET /api/commandes`: the three department slots
(`null` when never written, as in `defaultData`). -/
structure Recap where
  petitdej : Option Commande
  bar : Option Commande
  entretien : Option Commande
deriving DecidableEq, Repr

/-- A stored PIN credential `{ hash, createdAt }`. -/
structure PinCred where
  hash : String
  createdAt : String
deriving DecidableEq, Repr

/-- A persisted session `{ pinId, expiresAt }`; `expiresAt` is a
millisecond timestamp (`Date.now()`). -/
structure Session where
  pinId : String
  expiresAt : Int
deriving DecidableEq, Repr

/-- Render a flat fields mapping as a JSON object. -/
def renderFields (f : Fields) : JVal :=
  .jobj (f.map (fun p => (p.1, .jstr p.2)))

/-- Render a department record as JSON. -/
def renderCommande (c : Commande) : JVal :=
  .jobj [("donnees", renderFields c.donnees),
         ("updatedAt", match c.updatedAt with
                       | some t => .jstr t
                       | none => .jnull)]

/-- Render a possibly-null department slot as JSON. -/
def renderSlot : Option Commande → JVal
  | some c => renderCommande c
  | none => .jnull

namespace V1

/-! ## Variant `part_001`

Embeds the data layer and handler cores of `src/unnamed/part_001`. -/

/-- The configured credential cap (`MAX_PINS = 2`, part_001 line 35). -/
def MAX_PINS : Nat := 2

/-- Session time-to-live in milliseconds (8 hours, part_001 line 39). -/
def SESSION_TTL_MS : Int := 1000 * 60 * 60 * 8

/-- The snapshot written by `POST /api/validate` (part_001 lines
262–267): the three department records are stored at the top level of
the snapshot, next to `validatedAt` — there is no `commandes` wrapper. -/
structure Snapshot where
  petitdej : Option Commande
  bar : Option Commande
  entretien : Option Commande
  validatedAt : String
deriving DecidableEq, Repr

/-- The persisted store (part_001 `defaultData`, lines 64–73). -/
structure Store where
  petitdej : Option Commande
  bar : Option Commande
  entretien : Option Commande
  validated : Option Snapshot
  pins : List (String × PinCred)
  sessions : List (String × Session)
deriving DecidableEq, Repr

/-- `defaultData()` (part_001 lines 64–73). -/
def defaultData : Store :=
  { petitdej := none, bar := none, entretien := none,
    validated := none, pins := [], sessions := [] }

/-- `sanitizeNumberLike` (part_001 lines 113–119): null/undefined become
the empty string, numbers their `String(v)` rendering, strings are
trimmed, anything else (booleans, objects, arrays) becomes the empty
string. -/
def sanitizeNumberLike : RawVal → String
  | .vnull => ""
  | .vundef => ""
  | .vnum r => r
  | .vstr s => jsTrim s
  | _ => ""

/-- `normalizeDonnees` (part_001 lines 121–129): force a flat object,
sanitizing every own key (`Object.keys` on an array yields its index
strings). -/
def normalizeDonnees : RawVal → Fields
  | .vobj fields => fields.map (fun p => (p.1, sanitizeNumberLike p.2))
  | .varr elems => elems.enum.map (fun p => (toString p.1, sanitizeNumberLike p.2))
  | _ => []

/-- `ensureService` (part_001 lines 131–133). -/
def ensureService (service : String) : Bool :=
  service = "petitdej" || service = "bar" || service = "entretien"

/-- Read the department slot `data[service]` (only reached after
`ensureService`). -/
def getService (service : String) (s : Store) : Option Commande :=
  if service = "petitdej" then s.petitdej
  else if service = "bar" then s.bar
  else if service = "entretien" then s.entretien
  else none

/-- Write the department slot `data[service] = v` (only reached after
`ensureService`). -/
def setService (service : String) (v : Option Commande) (s : Store) : Store :=
  if service = "petitdej" then { s with petitdej := v }
  else if service = "bar" then { s with bar := v }
  else if service = "entretien" then { s with entretien := v }
  else s

/-- The expired-session purge performed by `saveData` (part_001 lines
98–111) before writing the document: a session is deleted exactly when
`expiresAt <= now`. -/
def saveData (nowMs : Int) (s : Store) : Store :=
  { s with sessions := s.sessions.filter (fun p => nowMs < p.2.expiresAt) }

/-- `getSession` (part_001 lines 145–153): resolve the session cookie
token; absent or empty token, unknown token, or `expiresAt <= Date.now()`
are all treated as anonymous. -/
def getSession (nowMs : Int) (cookieToken : Option String) (s : Store) :
    Option (String × Session) :=
  match cookieToken with
  | none => none
  | some tok =>
    if tok = "" then none
    else
      match alookup tok s.sessions with
      | none => none
      | some sess => if sess.expiresAt ≤ nowMs then none else some (tok, sess)

/-- Possible outcomes of the order-mutation handlers. -/
inductive UpsertRes where
  | serviceInconnu
  | saved (updatedAt : String)
deriving DecidableEq, Repr

/-- `POST /api/commandes/:service` (part_001 lines 198–221): validate the
service name first, normalize the body, replace the record, persist. -/
def upsert (service : String) (body : RawVal) (nowIso : String) (nowMs : Int)
    (s : Store) : Store × UpsertRes :=
  if ensureService service then
    let record : Commande := { donnees := normalizeDonnees body, updatedAt := some nowIso }
    (saveData nowMs (setService service (some record) s), .saved nowIso)
  else (s, .serviceInconnu)

/-- `POST /api/reset/:service` (part_001 lines 224–238). -/
def resetOne (service : String) (nowMs : Int) (s : Store) : Store × UpsertRes :=
  if ensureService service then
    (saveData nowMs (setService service none s), .saved "")
  else (s, .serviceInconnu)

/-- `POST /api/validate` core (part_001 lines 259–276): overwrite
`data.validated` with the three current department records and a fresh
timestamp, then persist. -/
def validate (nowIso : String) (nowMs : Int) (s : Store) : Store :=
  saveData nowMs
    { s with validated := some { petitdej := s.petitdej, bar := s.bar,
                                 entretien := s.entretien, validatedAt := nowIso } }

/-- Render the part_001 snapshot as the JSON it serializes to. -/
def renderSnapshot (v : Snapshot) : JVal :=
  .jobj [("petitdej", renderSlot v.petitdej),
         ("bar", renderSlot v.bar),
         ("entretien", renderSlot v.entretien),
         ("validatedAt", .jstr v.validatedAt)]

/-- `GET /api/validated` (part_001 lines 279–282): `res.json(data.validated
|| null)` — the response is JSON `null` whenever no snapshot exists. -/
def getValidatedResp (s : Store) : JVal :=
  match s.validated with
  | some v => renderSnapshot v
  | none => .jnull

/-- Response of `GET /api/commandes` (part_001 lines 179–186). -/
def recapResp (s : Store) : JVal :=
  .jobj [("petitdej", renderSlot s.petitdej),
         ("bar", renderSlot s.bar),
         ("entretien", renderSlot s.entretien)]

/-- Outcomes of `POST /api/pin/setup` (part_001 lines 312–349). -/
inductive SetupRes where
  | secretNotConfigured
  | badSetupSecret
  | pinMustBe4Digits
  | maxPinsReached
  | pinAlreadyExists
  | created
deriving DecidableEq, Repr

/-- `POST /api/pin/setup` (part_001 lines 312–349).  `cfgSecret` is the
`SETUP_SECRET` environment value, `compare` stands for `bcrypt.compare`,
and `newPinId`, `newHash`, `nowIso`, `nowMs` make the handler's random
id, computed hash and clock reads explicit.  The body fields are strings
(absent members behave as the empty string under `String(x || "")`).
Checks run in source order: configured secret, supplied secret, PIN
shape, capacity, bcrypt duplicate scan; only on success is a credential
stored and the document saved. -/
def pinSetup (cfgSecret : String) (compare : String → String → Bool)
    (newPinId newHash nowIso : String) (nowMs : Int)
    (bodySecret bodyPin : String) (s : Store) : Store × SetupRes :=
  if cfgSecret = "" then (s, .secretNotConfigured)
  else if bodySecret = "" ∨ bodySecret ≠ cfgSecret then (s, .badSetupSecret)
  else
    let pinStr := jsTrim bodyPin
    if ¬ isFourDigits pinStr then (s, .pinMustBe4Digits)
    else if MAX_PINS ≤ s.pins.length then (s, .maxPinsReached)
    else if s.pins.any (fun p => compare pinStr p.2.hash) then (s, .pinAlreadyExists)
    else
      (saveData nowMs
        { s with pins := assocSet newPinId { hash := newHash, createdAt := nowIso } s.pins },
       .created)

/-- Outcomes of `POST /api/pin/login` (part_001 lines 352–392). -/
inductive LoginRes where
  | pinMustBe4Digits
  | noPinSet
  | badPin
  | loggedIn (token : String)
deriving DecidableEq, Repr

/-- `POST /api/pin/login` (part_001 lines 352–392): trim and validate the
PIN shape, reject an empty credential table, scan the stored hashes in
key order taking the first `bcrypt.compare` match, then create a session
(`createSession`, lines 136–143) and persist.  `compare` stands for
`bcrypt.compare` and `token` for the random session token. -/
def pinLogin (compare : String → String → Bool) (token : String) (nowMs : Int)
    (bodyPin : String) (s : Store) : Store × LoginRes :=
  let pinStr := jsTrim bodyPin
  if ¬ isFourDigits pinStr then (s, .pinMustBe4Digits)
  else if s.pins = [] then (s, .noPinSet)
  else
    match s.pins.find? (fun p => compare pinStr p.2.hash) with
    | none => (s, .badPin)
    | some matched =>
      let s' := { s with
        sessions := assocSet token
          { pinId := matched.1, expiresAt := nowMs + SESSION_TTL_MS } s.sessions }
      (saveData nowMs s', .loggedIn token)

end V1

/-- The validated snapshot of the part_000 B and D variants (lines
420–429 and 1299–1306): the department records are wrapped in a
`commandes` object next to `validatedAt`. -/
structure SnapshotC where
  commandes : Recap
  validatedAt : String
deriving DecidableEq, Repr

/-- The persisted store of the part_000 B and D variants (`defaultData`,
lines 204–213 and 1048–1057). -/
structure StoreC where
  petitdej : Option Commande
  bar : Option Commande
  entretien : Option Commande
  validated : Option SnapshotC
  pins : List (String × PinCred)
  sessions : List (String × Session)
deriving DecidableEq, Repr

/-- `defaultData()` of the part_000 B and D variants. -/
def StoreC.defaultData : StoreC :=
  { petitdej := none, bar := none, entretien := none,
    validated := none, pins := [], sessions := [] }

/-- Current recap (`GET /api/commandes` content, part_000 lines 350–353
and 1181–1188). -/
def StoreC.recap (s : StoreC) : Recap :=
  { petitdej := s.petitdej, bar := s.bar, entretien := s.entretien }

/-- Read `data[service]` (reached only after `ensureService`). -/
def StoreC.getService (service : String) (s : StoreC) : Option Commande :=
  if service = "petitdej" then s.petitdej
  else if service = "bar" then s.bar
  else if service = "entretien" then s.entretien
  else none

/-- Write `data[service] = v` (reached only after `ensureService`). -/
def StoreC.setService (service : String) (v : Option Commande) (s : StoreC) : StoreC :=
  if service = "petitdej" then { s with petitdej := v }
  else if service = "bar" then { s with bar := v }
  else if service = "entretien" then { s with entretien := v }
  else s

/-- `saveData` session purge of the part_000 B and D variants (lines
237–247 and 1079–1089): delete every session with `expiresAt <= now`,
then write the document. -/
def StoreC.saveData (nowMs : Int) (s : StoreC) : StoreC :=
  { s with sessions := s.sessions.filter (fun p => nowMs < p.2.expiresAt) }

namespace V0B

/-! ## Variant `part_000`, lines 95–568

The middle rewrite with bcrypt credentials, persisted sessions and the
`commandes`-wrapped snapshot. -/

/-- `SERVICES` membership check `ensureService` (part_000 lines 114,
197–199). -/
def ensureService (service : String) : Bool :=
  service = "petitdej" || service = "bar" || service = "entretien"

/-- `sanitizeValue` (part_000 lines 249–255): null/undefined become the
empty string, numbers their `String(v)` rendering, strings are trimmed,
booleans become "1"/"0", anything else the empty string. -/
def sanitizeValue : RawVal → String
  | .vnull => ""
  | .vundef => ""
  | .vnum r => r
  | .vstr s => jsTrim s
  | .vbool b => if b then "1" else "0"
  | _ => ""

/-- `normalizeDonnees` (part_000 lines 257–264). -/
def normalizeDonnees : RawVal → Fields
  | .vobj fields => fields.map (fun p => (p.1, sanitizeValue p.2))
  | .varr elems => elems.enum.map (fun p => (toString p.1, sanitizeValue p.2))
  | _ => []

/-- `extractDonneesFromBody` (part_000 lines 266–272): unwrap a truthy
object-typed `donnees` member once, otherwise normalize the bare body. -/
def extractDonneesFromBody (reqBody : RawVal) : Fields :=
  match reqBody with
  | .vobj fields =>
    match alookup "donnees" fields with
    | some d => if d.isObjLike then normalizeDonnees d else normalizeDonnees (.vobj fields)
    | none => normalizeDonnees (.vobj fields)
  | .varr elems => normalizeDonnees (.varr elems)
  | _ => []

/-- `GET /api/commandes/:service` (part_000 lines 355–360): the service
name is validated before the store is loaded; the record (or `null`) is
returned otherwise. -/
def getOne (service : String) (s : StoreC) : Except String (Option Commande) :=
  if ensureService service then .ok (s.getService service)
  else .error "Service inconnu"

/-- Outcomes of the mutating commandes handlers. -/
inductive UpsertRes where
  | serviceInconnu
  | saved (updatedAt : String)
deriving DecidableEq, Repr

/-- `upsertCommande`, the shared `POST`/`PUT /api/commandes/:service`
handler (part_000 lines 363–385): validate the service name first, then
normalize the body, replace the record and persist. -/
def upsert (service : String) (body : RawVal) (nowIso : String) (nowMs : Int)
    (s : StoreC) : StoreC × UpsertRes :=
  if ensureService service then
    let record : Commande := { donnees := extractDonneesFromBody body, updatedAt := some nowIso }
    (StoreC.saveData nowMs (s.setService service (some record)), .saved nowIso)
  else (s, .serviceInconnu)

/-- `POST /api/reset/:service` (part_000 lines 387–401). -/
def resetOne (service : String) (nowMs : Int) (s : StoreC) : StoreC × UpsertRes :=
  if ensureService service then
    (StoreC.saveData nowMs (s.setService service none), .saved "")
  else (s, .serviceInconnu)

/-- `POST /api/validate` core (part_000 lines 420–438): overwrite
`data.validated` with a snapshot wrapping the three current department
records under `commandes`, stamped with a fresh timestamp, and persist. -/
def validate (nowIso : String) (nowMs : Int) (s : StoreC) : StoreC :=
  StoreC.saveData nowMs
    { s with validated := some { commandes := s.recap, validatedAt := nowIso } }

/-- `GET /api/validated` (part_000 lines 440–443): `data.validated ||
null` — the typed content of the response. -/
def getValidated (s : StoreC) : Option SnapshotC :=
  s.validated

end V0B

namespace V0D

/-! ## Variant `part_000`, lines 987–1474

The last rewrite in part_000: bcrypt credentials, persisted sessions,
the double-nest-tolerant `extractPayload`, and a `GET /api/validated`
that never answers `null`. -/

/-- `sanitizeNumberLike` (part_000 lines 1095–1101): null/undefined
become the empty string, numbers their `String(v)` rendering, strings
are trimmed, anything else (booleans, objects, arrays) becomes the empty
string. -/
def sanitizeNumberLike : RawVal → String
  | .vnull => ""
  | .vundef => ""
  | .vnum r => r
  | .vstr s => jsTrim s
  | _ => ""

/-- `normalizeDonnees` (part_000 lines 1103–1110): force a flat object,
sanitizing every own key (`Object.keys` on an array yields its index
strings; non-objects give the empty mapping). -/
def normalizeDonnees : RawVal → Fields
  | .vobj fields => fields.map (fun p => (p.1, sanitizeNumberLike p.2))
  | .varr elems => elems.enum.map (fun p => (toString p.1, sanitizeNumberLike p.2))
  | _ => []

/-- `extractPayload` (part_000 lines 1119–1133): accept
`{ donnees: {...} }`, the double-nested `{ donnees: { donnees: {...} } }`
and a bare mapping, normalizing whichever layer applies. -/
def extractPayload (reqBody : RawVal) : Fields :=
  match reqBody with
  | .vobj fields =>
    match alookup "donnees" fields with
    | some d =>
      if d.isObjLike then
        match d.get "donnees" with
        | some dd => if dd.isObjLike then normalizeDonnees dd else normalizeDonnees d
        | none => normalizeDonnees d
      else normalizeDonnees (.vobj fields)
    | none => normalizeDonnees (.vobj fields)
  | .varr elems => normalizeDonnees (.varr elems)
  | _ => []

/-- Render the B/D snapshot as the JSON it serializes to (key order of
the literal at part_000 lines 1299–1306). -/
def renderSnapshot (v : SnapshotC) : JVal :=
  .jobj [("validatedAt", .jstr v.validatedAt),
         ("commandes", .jobj [("petitdej", renderSlot v.commandes.petitdej),
                              ("bar", renderSlot v.commandes.bar),
                              ("entretien", renderSlot v.commandes.entretien)])]

/-- `GET /api/validated` (part_000 lines 1319–1325): when no snapshot
exists the handler answers the well-formed empty snapshot
`{ validatedAt: null, commandes: {} }` instead of `null`. -/
def getValidatedResp (s : StoreC) : JVal :=
  match s.validated with
  | none => .jobj [("validatedAt", .jnull), ("commandes", .jobj [])]
  | some v => renderSnapshot v

end V0D

namespace V0C

/-! ## Variant `part_000`, lines 569–986

The scope-based rewrite: per-scope PINs hashed with a salted sha256
digest, in-memory sessions, and a master PIN mapping to the admin
scope. -/

/-- Session time-to-live in milliseconds (part_000 line 593). -/
def SESSION_TTL_MS : Int := 1000 * 60 * 60 * 8

/-- A stored per-scope PIN `{ hash, updatedAt }` (part_000 lines
857–866). -/
structure PinRec where
  hash : String
  updatedAt : String
deriving DecidableEq, Repr

/-- An in-memory session `{ scope, expiresAt }` (part_000 lines
699–700). -/
structure Sess where
  scope : String
  expiresAt : Int
deriving DecidableEq, Repr

/-- `hashPin` (part_000 lines 750–753): the salted digest
`sha256(pin + ":" + PIN_SALT)`; `digest` stands for the sha256
primitive. -/
def hashPin (digest : String → String) (salt pin : String) : String :=
  digest (pin ++ ":" ++ salt)

/-- Outcomes of `POST /api/auth/login` (part_000 lines 792–825). -/
inductive LoginOut where
  | pinInvalid
  | badPin
  | success (body : JVal)

/-- `POST /api/auth/login` (part_000 lines 792–825): trim and validate
the PIN, grant the admin scope on the master PIN, otherwise compare the
salted digest against the four persisted scope slots in fixed order.  A
success stores a fresh in-memory session and answers
`{ ok, token, scope }` — the matched scope is part of the body. -/
def login (digest : String → String) (salt masterPin token : String) (nowMs : Int)
    (rawPin : String) (pins : List (String × PinRec))
    (sessions : List (String × Sess)) : List (String × Sess) × LoginOut :=
  let pin := jsTrim rawPin
  if ¬ isFourDigits pin then (sessions, .pinInvalid)
  else if pin = masterPin then
    (assocSet token { scope := "admin", expiresAt := nowMs + SESSION_TTL_MS } sessions,
     .success (.jobj [("ok", .jbool true), ("token", .jstr token),
                      ("scope", .jstr "admin")]))
  else
    let pinHash := hashPin digest salt pin
    let matched := ["petitdej", "bar", "entretien", "recap"].find?
      (fun sc => match alookup sc pins with
                 | some r => r.hash ≠ "" && r.hash = pinHash
                 | none => false)
    match matched with
    | none => (sessions, .badPin)
    | some sc =>
      (assocSet token { scope := sc, expiresAt := nowMs + SESSION_TTL_MS } sessions,
       .success (.jobj [("ok", .jbool true), ("token", .jstr token),
                        ("scope", .jstr sc)]))

end V0C

namespace SJ

/-! ## `src/server.js`

The owner/chef role variant: separate JSON files per concern, JWT
bearer tokens, and commandes records of shape
`{ donnees: { donnees: {...} }, updatedAt }`. -/

/-- A stored role credential `{ hash, createdAt }` with the optional
`resetAt` written by the owner reset (server.js lines 131, 178–179). -/
structure RoleCred where
  hash : String
  createdAt : String
  resetAt : Option String
deriving DecidableEq, Repr

/-- The `pins.json` document `{ owner, chef }` (server.js lines 56,
62–64). -/
structure Pins where
  owner : Option RoleCred
  chef : Option RoleCred
deriving DecidableEq, Repr

/-- The check `pins.role?.hash && await bcrypt.compare(pinStr,
pins.role.hash)` (server.js lines 152–153). -/
def credMatches (compare : String → String → Bool) (pin : String) :
    Option RoleCred → Bool
  | some c => c.hash ≠ "" && compare pin c.hash
  | none => false

/-- Outcomes of `POST /api/pin/login` (server.js lines 140–165); a
success carries the matched role (internal, used only to sign the JWT)
and the JSON body actually sent. -/
inductive LoginOut where
  | pinInvalid
  | badPin
  | success (role : String) (body : JVal)

/-- `POST /api/pin/login` (server.js lines 140–165): validate the PIN
shape, test owner then chef in that deliberate order, and on a match
answer `{ ok: true, token }` — the body never names the matched role
(the role only goes into the signed JWT, `token` here).  `compare`
stands for `bcrypt.compare`. -/
def pinLogin (compare : String → String → Bool) (token : String)
    (pin : String) (pins : Pins) : LoginOut :=
  if ¬ isFourDigits pin then .pinInvalid
  else
    let roleMatched : Option String :=
      if credMatches compare pin pins.owner then some "owner"
      else if credMatches compare pin pins.chef then some "chef"
      else none
    match roleMatched with
    | none => .badPin
    | some role =>
      .success role (.jobj [("ok", .jbool true), ("token", .jstr token)])

/-- A commandes record of server.js: `{ donnees: { donnees: inner },
updatedAt }`; `inner` keeps raw JS values because the PUT handler
spreads the incoming payload without sanitizing it. -/
structure Record where
  inner : List (String × RawVal)
  updatedAt : Option String

/-- The empty-record placeholder `{ donnees: { donnees: {} }, updatedAt:
null }` (server.js lines 52, 201, 218, 229, 246). -/
def emptyRecord : Record :=
  { inner := [], updatedAt := none }

/-- The commandes.json document: an arbitrary string-keyed mapping (the
handlers never restrict the key set). -/
abbrev Data := List (String × Record)

/-- JS object-literal spread `{ ...v }` of a dynamic value: objects
contribute their entries, arrays and strings their indexed elements,
primitives nothing. -/
def spreadEntries : RawVal → List (String × RawVal)
  | .vobj fields => fields
  | .varr elems => elems.enum.map (fun p => (toString p.1, p.2))
  | .vstr s => s.toList.enum.map (fun p => (toString p.1, .vstr (String.singleton p.2)))
  | _ => []

/-- JS merge `{ ...a, ...b }`: keys of `a` in order with values
overridden by `b` where shared, then the new keys of `b` in order. -/
def mergeObj (a b : List (String × RawVal)) : List (String × RawVal) :=
  (a.map (fun p => (p.1, match alookup p.1 b with
                         | some v => v
                         | none => p.2)))
    ++ b.filter (fun p => (alookup p.1 a).isNone)

/-- The incoming mapping `payload?.donnees?.donnees || payload?.donnees
|| {}` (server.js lines 203, 232). -/
def extractIncoming (body : RawVal) : RawVal :=
  let payload := if body.isTruthy then body else .vobj []
  jsOr (payload.get "donnees" >>= RawVal.get "donnees")
    (jsOr (payload.get "donnees") (.vobj []))

/-- `PUT /api/commandes/:service` (server.js lines 224–240): NO service
validation — any name is initialized if missing, shallow-merged into and
stamped, then written back. -/
def upsert (service : String) (body : RawVal) (nowIso : String) (data : Data) :
    Data × JVal :=
  let existing : Record := (alookup service data).getD emptyRecord
  let incoming := spreadEntries (extractIncoming body)
  let record : Record := { inner := mergeObj existing.inner incoming,
                           updatedAt := some nowIso }
  (assocSet service record data,
   .jobj [("ok", .jbool true), ("updatedAt", .jstr nowIso)])

/-- `GET /api/commandes/:service` (server.js lines 215–219): NO service
validation — `data[service] || empty placeholder`. -/
def getOne (service : String) (data : Data) : Record :=
  (alookup service data).getD emptyRecord

/-- `POST /api/reset/:service` (server.js lines 243–255): NO service
validation — the record is cleared to empty inner fields but `updatedAt`
is stamped with the reset time, not null. -/
def resetOne (service : String) (nowIso : String) (data : Data) : Data :=
  assocSet service { inner := [], updatedAt := some nowIso } data

end SJ

namespace V2

/-! ## Variant `part_002`

The earliest shape that keeps per-service records non-null: `loadData`
substitutes `{ donnees: {}, updatedAt: null }` for every missing
department. -/

/-- A department record; `donnees` is raw because the upsert stores
`req.body || {}` unfiltered (part_002 lines 83–86). -/
structure Record where
  donnees : RawVal
  updatedAt : Option String

/-- The store after `loadData` (part_002 lines 23–40): every department
present. -/
structure Store where
  petitdej : Record
  bar : Record
  entretien : Record

/-- The service whitelist check (part_002 lines 64, 76, 98). -/
def ensureService (service : String) : Bool :=
  service = "petitdej" || service = "bar" || service = "entretien"

/-- Read `data[service]` (reached only after the whitelist check). -/
def getService (service : String) (s : Store) : Record :=
  if service = "petitdej" then s.petitdej
  else if service = "bar" then s.bar
  else if service = "entretien" then s.entretien
  else s.petitdej

/-- Write `data[service] = v` (reached only after the whitelist check). -/
def setService (service : String) (v : Record) (s : Store) : Store :=
  if service = "petitdej" then { s with petitdej := v }
  else if service = "bar" then { s with bar := v }
  else if service = "entretien" then { s with entretien := v }
  else s

/-- `GET /api/commandes/:service` (part_002 lines 61–70). -/
def getOne (service : String) (s : Store) : Except String Record :=
  if ensureService service then .ok (getService service s)
  else .error "Service inconnu"

/-- `POST /api/reset/:service` (part_002 lines 95–112): clear the record
to `{ donnees: {}, updatedAt: null }` and persist. -/
def resetOne (service : String) (s : Store) : Store × Except String String :=
  if ensureService service then
    (setService service { donnees := .vobj [], updatedAt := none } s,
     .ok service)
  else (s, .error "Service inconnu")

end V2


/-! ## Helper lemmas -/

/-- Setting one department slot leaves the validated snapshot alone. -/
theorem StoreC.setService_validated (d : String) (v : Option Commande) (s : StoreC) :
    (s.setService d v).validated = s.validated := by
  unfold StoreC.setService
  split <;> try rfl
  split <;> try rfl
  split <;> rfl

/-- Setting one department slot leaves the part_001 snapshot alone. -/
theorem V1.setService_keeps_validated (d : String) (v : Option Commande) (s : V1.Store) :
    (V1.setService d v s).validated = s.validated := by
  unfold V1.setService
  split <;> try rfl
  split <;> try rfl
  split <;> rfl

/-- The part_001 save-time session purge leaves the snapshot alone. -/
theorem V1.saveData_keeps_validated (n : Int) (s : V1.Store) :
    (V1.saveData n s).validated = s.validated := rfl

/-- The save-time session purge leaves the validated snapshot alone. -/
theorem StoreC.saveData_validated (n : Int) (s : StoreC) :
    (StoreC.saveData n s).validated = s.validated := rfl

/-- Assignment followed by lookup on a JS object returns the value just
written. -/
theorem alookup_assocSet (k : String) (v : α) (l : List (String × α)) :
    alookup k (assocSet k v l) = some v := by
  induction l with
  | nil => simp [assocSet, alookup]
  | cons p t ih =>
    rcases p with ⟨k', v'⟩
    by_cases h : k' = k
    · simp [assocSet, alookup, h]
    · simp [assocSet, alookup, h, ih]

/-! ## Claim C1 -/

/-- C1 (amended): in the part_000 B variant, `validate()` then
`getValidated()` yields a snapshot whose `commandes` equals the recap
(`getAll()`) taken immediately before the call, fully replacing any
prior snapshot, and this snapshot survives any later upsert or reset of
a department unchanged; the part_001 variant gives the same guarantee
except that the snapshot stores the department records at its top level
instead of under a `commandes` member. -/
theorem c1_validate_snapshot_amended :
    (∀ (s : StoreC) (nIso : String) (nMs : Int),
       V0B.getValidated (V0B.validate nIso nMs s) =
         some { commandes := s.recap, validatedAt := nIso }) ∧
    (∀ (s : StoreC) (nIso : String) (nMs : Int) (d : String) (body : RawVal)
       (n2 : String) (m2 : Int),
       V0B.getValidated ((V0B.upsert d body n2 m2 (V0B.validate nIso nMs s)).1) =
         some { commandes := s.recap, validatedAt := nIso }) ∧
    (∀ (s : StoreC) (nIso : String) (nMs : Int) (d : String) (m2 : Int),
       V0B.getValidated ((V0B.resetOne d m2 (V0B.validate nIso nMs s)).1) =
         some { commandes := s.recap, validatedAt := nIso }) ∧
    (∀ (s : V1.Store) (nIso : String) (nMs : Int),
       (V1.validate nIso nMs s).validated =
         some { petitdej := s.petitdej, bar := s.bar, entretien := s.entretien,
                validatedAt := nIso }) ∧
    (∀ (s : V1.Store) (nIso : String) (nMs : Int) (d : String) (body : RawVal)
       (n2 : String) (m2 : Int),
       ((V1.upsert d body n2 m2 (V1.validate nIso nMs s)).1).validated =
         some { petitdej := s.petitdej, bar := s.bar, entretien := s.entretien,
                validatedAt := nIso }) ∧
    (∀ (s : V1.Store) (nIso : String) (nMs : Int) (d : String) (m2 : Int),
       ((V1.resetOne d m2 (V1.validate nIso nMs s)).1).validated =
         some { petitdej := s.petitdej, bar := s.bar, entretien := s.entretien,
                validatedAt := nIso }) := by
  refine ⟨fun s nIso nMs => rfl, ?_, ?_, fun s nIso nMs => rfl, ?_, ?_⟩
  · intro s nIso nMs d body n2 m2
    unfold V0B.upsert
    split
    · rw [V0B.getValidated, StoreC.saveData_validated, StoreC.setService_validated]
      rfl
    · rfl
  · intro s nIso nMs d m2
    unfold V0B.resetOne
    split
    · rw [V0B.getValidated, StoreC.saveData_validated, StoreC.setService_validated]
      rfl
    · rfl
  · intro s nIso nMs d body n2 m2
    unfold V1.upsert
    split
    · rw [V1.saveData_keeps_validated, V1.setService_keeps_validated]
      rfl
    · rfl
  · intro s nIso nMs d m2
    unfold V1.resetOne
    split
    · rw [V1.saveData_keeps_validated, V1.setService_keeps_validated]
      rfl
    · rfl

/-- Concrete store used to refute C1 as stated on part_001. -/
def c1Store : V1.Store :=
  { V1.defaultData with
      bar := some { donnees := [("Coca", "6")], updatedAt := some "t0" } }

/-- C1 counterexample: on part_001 the snapshot returned by
`GET /api/validated` after `validate()` has NO `commandes` member at
all, so it cannot deep-equal the recap that `getAll()` returned just
before the call. -/
theorem c1_counterexample :
    jLookup "commandes" (V1.getValidatedResp (V1.validate "T1" 0 c1Store)) = none ∧
    jLookup "commandes" (V1.getValidatedResp (V1.validate "T1" 0 c1Store)) ≠
      some (V1.recapResp c1Store) :=
  ⟨rfl, fun h => Option.noConfusion h⟩

/-! ## Claim C2 -/

/-- C2 (amended): in the part_000 D variant, `getValidated()` on a store
without a snapshot returns the well-formed empty snapshot
`{ validatedAt: null, commandes: {} }` and is never the JSON `null`
top-level value; the part_001 variant instead answers `null` when no
snapshot exists. -/
theorem c2_validated_never_null_amended :
    (∀ s : StoreC, s.validated = none →
       V0D.getValidatedResp s =
         .jobj [("validatedAt", .jnull), ("commandes", .jobj [])]) ∧
    (∀ s : StoreC, V0D.getValidatedResp s ≠ .jnull) := by
  constructor
  · intro s h
    unfold V0D.getValidatedResp
    rw [h]
  · intro s
    unfold V0D.getValidatedResp
    cases s.validated <;> simp [V0D.renderSnapshot]

/-- C2 witness: the amended theorem evaluated on the default store. -/
theorem c2_witness :
    StoreC.defaultData.validated = none ∧
    V0D.getValidatedResp StoreC.defaultData =
      .jobj [("validatedAt", .jnull), ("commandes", .jobj [])] :=
  ⟨rfl, c2_validated_never_null_amended.1 StoreC.defaultData rfl⟩

/-- C2 counterexample: on part_001 the very first `GET /api/validated`
(no snapshot yet) answers the JSON top-level `null`. -/
theorem c2_counterexample :
    V1.getValidatedResp V1.defaultData = JVal.jnull := rfl

/-! ## Claim C3 -/

/-- Spec-side field normalization, following the amended claim's words:
string values are trimmed, null/undefined become the empty string,
numbers their string rendering, and nested object/array (as well as
boolean) values become the empty string while their key is retained. -/
def specNormalizeValue : RawVal → String
  | .vstr s => jsTrim s
  | .vnull => ""
  | .vundef => ""
  | .vnum r => r
  | .vbool _ => ""
  | .varr _ => ""
  | .vobj _ => ""

/-- The source's per-value sanitizer agrees with the spec-side one. -/
theorem sanitizeNumberLike_eq_spec (v : RawVal) :
    V0D.sanitizeNumberLike v = specNormalizeValue v := by
  cases v <;> rfl

/-- Objects pass the `v && typeof v === "object"` test. -/
theorem isObjLike_vobj (l : List (String × RawVal)) :
    (RawVal.vobj l).isObjLike = true := rfl

/-- C3 (amended): for each of the three accepted payload shapes —
`{ donnees: m }`, double-nested `{ donnees: { donnees: m } }`, or the
bare mapping `m` (provided `m` itself holds no object-typed `donnees`
member, which would make the shapes ambiguous) — `extractPayload`
produces the same flat fields mapping over exactly the keys of `m`,
with string values trimmed, null/undefined mapped to the empty string,
numbers to their string rendering, and nested object/array values
mapped to the empty string with their key retained (not dropped). -/
theorem c3_extract_payload_amended (m : List (String × RawVal))
    (hd : ∀ v, alookup "donnees" m = some v → v.isObjLike = false) :
    V0D.extractPayload (.vobj [("donnees", .vobj m)]) =
        m.map (fun p => (p.1, specNormalizeValue p.2)) ∧
    V0D.extractPayload (.vobj [("donnees", .vobj [("donnees", .vobj m)])]) =
        m.map (fun p => (p.1, specNormalizeValue p.2)) ∧
    V0D.extractPayload (.vobj m) =
        m.map (fun p => (p.1, specNormalizeValue p.2)) ∧
    (V0D.extractPayload (.vobj m)).map Prod.fst = m.map Prod.fst := by
  have hnorm : V0D.normalizeDonnees (.vobj m) =
      m.map (fun p => (p.1, specNormalizeValue p.2)) := by
    simp [V0D.normalizeDonnees, sanitizeNumberLike_eq_spec]
  refine ⟨?_, ?_, ?_, ?_⟩
  · cases h : alookup "donnees" m with
    | none =>
      simp [V0D.extractPayload, alookup, isObjLike_vobj, RawVal.get, h, hnorm]
    | some dd =>
      have hdd := hd dd h
      simp [V0D.extractPayload, alookup, isObjLike_vobj, RawVal.get, h, hdd, hnorm]
  · simp [V0D.extractPayload, alookup, isObjLike_vobj, RawVal.get, hnorm]
  · cases h : alookup "donnees" m with
    | none => simp [V0D.extractPayload, h, hnorm]
    | some dd =>
      have hdd := hd dd h
      simp [V0D.extractPayload, h, hdd, hnorm]
  · cases h : alookup "donnees" m with
    | none => simp [V0D.extractPayload, h, hnorm]
    | some dd =>
      have hdd := hd dd h
      simp [V0D.extractPayload, h, hdd, hnorm]

/-- Concrete payload mapping for the C3 witness. -/
def c3m : List (String × RawVal) :=
  [("Coca", .vstr " 6 "), ("Eau", .vnum "14"), ("Vide", .vnull),
   ("Objet", .vobj [("x", .vstr "1")])]

/-- C3 witness: the amended theorem evaluated on a concrete mapping,
together with the concrete normalized output. -/
theorem c3_witness :
    V0D.extractPayload (.vobj [("donnees", .vobj c3m)]) =
        c3m.map (fun p => (p.1, specNormalizeValue p.2)) ∧
    V0D.extractPayload (.vobj [("donnees", .vobj [("donnees", .vobj c3m)])]) =
        c3m.map (fun p => (p.1, specNormalizeValue p.2)) ∧
    c3m.map (fun p => (p.1, specNormalizeValue p.2)) =
        [("Coca", "6"), ("Eau", "14"), ("Vide", ""), ("Objet", "")] :=
  ⟨(c3_extract_payload_amended c3m (fun v h => Option.noConfusion h)).1,
   (c3_extract_payload_amended c3m (fun v h => Option.noConfusion h)).2.1,
   by decide⟩

/-- C3 counterexample: a nested object value is NOT dropped — the key
survives, bound to the empty string. -/
theorem c3_counterexample :
    V0D.extractPayload (.vobj [("donnees", .vobj [("a", .vobj [("x", .vstr "1")])])]) =
      [("a", "")] ∧
    V0D.extractPayload (.vobj [("donnees", .vobj [("a", .vobj [("x", .vstr "1")])])]) ≠
      [] := by
  refine ⟨by decide, by decide⟩

/-! ## Claim C4 -/

/-- C4 (amended): in the part_000 B variant (and likewise part_001 and
part_002), `getOne`, `upsert` and `resetOne` validate the department
name against the fixed set first: any other name yields the
domain-validation error with the store untouched, uniformly in the
store (so the store is neither read nor mutated).  The src/server.js
handlers perform no such validation and operate on arbitrary department
names. -/
theorem c4_department_validation_amended (d : String)
    (hd : V0B.ensureService d = false) :
    (∀ s : StoreC, V0B.getOne d s = .error "Service inconnu") ∧
    (∀ (s : StoreC) (body : RawVal) (nIso : String) (nMs : Int),
       V0B.upsert d body nIso nMs s = (s, .serviceInconnu)) ∧
    (∀ (s : StoreC) (nMs : Int),
       V0B.resetOne d nMs s = (s, .serviceInconnu)) ∧
    (∀ (s : V1.Store) (body : RawVal) (nIso : String) (nMs : Int),
       V1.upsert d body nIso nMs s = (s, .serviceInconnu)) ∧
    (∀ (s : V1.Store) (nMs : Int),
       V1.resetOne d nMs s = (s, .serviceInconnu)) ∧
    (∀ s : V2.Store, V2.getOne d s = .error "Service inconnu") ∧
    (∀ s : V2.Store, V2.resetOne d s = (s, .error "Service inconnu")) := by
  have hd1 : V1.ensureService d = false := hd
  have hd2 : V2.ensureService d = false := hd
  refine ⟨?_, ?_, ?_, ?_, ?_, ?_, ?_⟩ <;> intros <;>
    simp [V0B.getOne, V0B.upsert, V0B.resetOne, V1.upsert, V1.resetOne,
          V2.getOne, V2.resetOne, hd, hd1, hd2]

/-- C4 witness: the amended theorem evaluated at the unknown department
name "toto" on the default store. -/
theorem c4_witness :
    V0B.ensureService "toto" = false ∧
    V0B.getOne "toto" StoreC.defaultData = .error "Service inconnu" ∧
    V0B.upsert "toto" (.vobj []) "t" 0 StoreC.defaultData =
      (StoreC.defaultData, .serviceInconnu) ∧
    V0B.resetOne "toto" 0 StoreC.defaultData =
      (StoreC.defaultData, .serviceInconnu) :=
  ⟨by decide,
   (c4_department_validation_amended "toto" (by decide)).1 StoreC.defaultData,
   (c4_department_validation_amended "toto" (by decide)).2.1 StoreC.defaultData (.vobj []) "t" 0,
   (c4_department_validation_amended "toto" (by decide)).2.2.1 StoreC.defaultData 0⟩

/-- The commandes.json content used to refute C4 on src/server.js. -/
def c4Data : SJ.Data :=
  [("petitdej", SJ.emptyRecord), ("bar", SJ.emptyRecord), ("entretien", SJ.emptyRecord)]

/-- C4 counterexample: the src/server.js `PUT /api/commandes/:service`
handler accepts the department name "foo", answers success and mutates
the persisted store by creating a record under that arbitrary key. -/
theorem c4_counterexample :
    alookup "foo" c4Data = none ∧
    (SJ.upsert "foo" (.vobj []) "2024-01-01T00:00:00.000Z" c4Data).1 =
      c4Data ++ [("foo", { inner := [], updatedAt := some "2024-01-01T00:00:00.000Z" })] ∧
    (SJ.upsert "foo" (.vobj []) "2024-01-01T00:00:00.000Z" c4Data).2 =
      .jobj [("ok", .jbool true), ("updatedAt", .jstr "2024-01-01T00:00:00.000Z")] :=
  ⟨rfl, rfl, rfl⟩

/-! ## Claim C5 -/

/-- C5 (amended): in src/server.js the successful login body is
`{ ok: true, token }` whatever slot matched, so two successful logins
are indistinguishable apart from the opaque token; the part_000
scope-variant login (`POST /api/auth/login`, lines 792–825) instead
includes the matched scope in the body. -/
theorem c5_login_body_hides_slot_amended :
    (∀ (compare : String → String → Bool) (token pin : String) (pins : SJ.Pins)
       (role : String) (body : JVal),
       SJ.pinLogin compare token pin pins = .success role body →
       stripKey "token" body = .jobj [("ok", .jbool true)]) ∧
    (∀ (compare₁ compare₂ : String → String → Bool) (t₁ t₂ p₁ p₂ : String)
       (pins₁ pins₂ : SJ.Pins) (r₁ r₂ : String) (b₁ b₂ : JVal),
       SJ.pinLogin compare₁ t₁ p₁ pins₁ = .success r₁ b₁ →
       SJ.pinLogin compare₂ t₂ p₂ pins₂ = .success r₂ b₂ →
       stripKey "token" b₁ = stripKey "token" b₂) := by
  have key : ∀ (compare : String → String → Bool) (token pin : String)
      (pins : SJ.Pins) (role : String) (body : JVal),
      SJ.pinLogin compare token pin pins = .success role body →
      stripKey "token" body = .jobj [("ok", .jbool true)] := by
    intro compare token pin pins role body h
    unfold SJ.pinLogin at h
    by_cases h4 : isFourDigits pin
    · by_cases ho : SJ.credMatches compare pin pins.owner
      · simp [h4, ho] at h
        rw [← h.2]
        rfl
      · by_cases hc : SJ.credMatches compare pin pins.chef
        · simp [h4, ho, hc] at h
          rw [← h.2]
          rfl
        · simp [h4, ho, hc] at h
    · simp [h4] at h
  exact ⟨key, fun c₁ c₂ t₁ t₂ p₁ p₂ ps₁ ps₂ r₁ r₂ b₁ b₂ h₁ h₂ =>
    (key c₁ t₁ p₁ ps₁ r₁ b₁ h₁).trans (key c₂ t₂ p₂ ps₂ r₂ b₂ h₂).symm⟩

/-- Credential table for the C5 witness. -/
def c5Pins : SJ.Pins :=
  { owner := some { hash := "1234", createdAt := "c", resetAt := none },
    chef := none }

/-- C5 witness: the amended theorem applied to a concrete successful
login (modelling `bcrypt.compare` by plain equality of the PIN with a
plaintext-stored hash). -/
theorem c5_witness :
    SJ.pinLogin (fun a b => a == b) "TOK" "1234" c5Pins =
      .success "owner" (.jobj [("ok", .jbool true), ("token", .jstr "TOK")]) ∧
    stripKey "token" (.jobj [("ok", .jbool true), ("token", .jstr "TOK")]) =
      .jobj [("ok", .jbool true)] :=
  ⟨rfl, c5_login_body_hides_slot_amended.1 (fun a b => a == b) "TOK" "1234" c5Pins
    "owner" (.jobj [("ok", .jbool true), ("token", .jstr "TOK")]) rfl⟩

/-- Credential table for the C5 counterexample (salted digest modelled
with the identity digest: a stored hash is the pin followed by ":s"). -/
def c5ScopePins : List (String × V0C.PinRec) :=
  [("bar", { hash := "1111:s", updatedAt := "u" }),
   ("recap", { hash := "2222:s", updatedAt := "u" })]

/-- C5 counterexample: in the part_000 scope variant two successful
logins that match different slots produce bodies that still differ
after the opaque token is erased — the `scope` member reveals the
matched slot. -/
theorem c5_counterexample :
    (V0C.login id "s" "9999" "T1" 0 "1111" c5ScopePins []).2 =
      .success (.jobj [("ok", .jbool true), ("token", .jstr "T1"),
                       ("scope", .jstr "bar")]) ∧
    (V0C.login id "s" "9999" "T2" 0 "2222" c5ScopePins []).2 =
      .success (.jobj [("ok", .jbool true), ("token", .jstr "T2"),
                       ("scope", .jstr "recap")]) ∧
    stripKey "token" (.jobj [("ok", .jbool true), ("token", .jstr "T1"),
                             ("scope", .jstr "bar")]) ≠
      stripKey "token" (.jobj [("ok", .jbool true), ("token", .jstr "T2"),
                               ("scope", .jstr "recap")]) := by
  refine ⟨rfl, rfl, fun h => ?_⟩
  have h1 : (some (JVal.jstr "bar") : Option JVal) = some (JVal.jstr "recap") :=
    congrArg (jLookup "scope") h
  injection h1 with h2
  injection h2 with h3
  exact absurd h3 (by decide)

/-! ## Claim C6 -/

/-- C6: once the stored credential count equals the configured maximum
(`MAX_PINS = 2`), every further `POST /api/pin/setup` fails with
`MAX_PINS_REACHED` and leaves the store untouched, even with the
correct setup secret and a well-formed PIN (part_001 lines 312–349). -/
theorem c6_setup_capacity (cfgSecret : String) (compare : String → String → Bool)
    (newPinId newHash nowIso : String) (nowMs : Int) (bodySecret bodyPin : String)
    (s : V1.Store)
    (hcfg : cfgSecret ≠ "") (hsec : bodySecret = cfgSecret)
    (hpin : isFourDigits (jsTrim bodyPin) = true)
    (hcap : s.pins.length = V1.MAX_PINS) :
    V1.pinSetup cfgSecret compare newPinId newHash nowIso nowMs bodySecret bodyPin s =
      (s, .maxPinsReached) := by
  subst hsec
  simp [V1.pinSetup, hcfg, hpin, hcap]

/-- Concrete full store for the C6 witness. -/
def c6Store : V1.Store :=
  { V1.defaultData with
      pins := [("id1", { hash := "h1", createdAt := "c1" }),
               ("id2", { hash := "h2", createdAt := "c2" })] }

/-- C6 witness: the theorem evaluated at a store already holding two
credentials, a correct secret and a well-formed PIN. -/
theorem c6_witness :
    c6Store.pins.length = V1.MAX_PINS ∧
    isFourDigits (jsTrim "1234") = true ∧
    V1.pinSetup "S3CRET" (fun _ _ => false) "idN" "hN" "t" 0 "S3CRET" "1234" c6Store =
      (c6Store, .maxPinsReached) :=
  ⟨rfl, by decide,
   c6_setup_capacity "S3CRET" (fun _ _ => false) "idN" "hN" "t" 0 "S3CRET" "1234"
     c6Store (by decide) rfl (by decide) rfl⟩

/-! ## Claim C7 -/

/-- C7 (amended): whenever the supplied PIN string, once coerced and
TRIMMED, is not exactly four decimal digits, part_001's login answers
the validation error with the store unchanged, uniformly in the bcrypt
comparator and the store — so no stored credential hash is consulted.
(src/server.js behaves the same without the trimming step.) -/
theorem c7_login_rejects_malformed_pin_amended
    (compare : String → String → Bool) (token : String) (nowMs : Int)
    (bodyPin : String) (s : V1.Store)
    (h : ¬ isFourDigits (jsTrim bodyPin) = true) :
    V1.pinLogin compare token nowMs bodyPin s = (s, .pinMustBe4Digits) := by
  simp [V1.pinLogin, h]

/-- C7 witness: the amended theorem evaluated on a malformed PIN. -/
theorem c7_witness :
    isFourDigits (jsTrim "12a4") = false ∧
    V1.pinLogin (fun a b => a == b) "TOK" 0 "12a4" V1.defaultData =
      (V1.defaultData, .pinMustBe4Digits) :=
  ⟨by decide,
   c7_login_rejects_malformed_pin_amended (fun a b => a == b) "TOK" 0 "12a4"
     V1.defaultData (by decide)⟩

/-- Store holding one credential, used to refute C7 as stated
(`bcrypt.compare` modelled by equality with a plaintext-stored hash). -/
def c7Store : V1.Store :=
  { V1.defaultData with pins := [("id1", { hash := "1234", createdAt := "c" })] }

/-- C7 counterexample: the input PIN " 1234" is not exactly four decimal
digits, yet part_001 trims it first, so the login does NOT fail with
the validation error — it proceeds to the hash comparison and even
succeeds against a matching credential. -/
theorem c7_counterexample :
    isFourDigits " 1234" = false ∧
    (V1.pinLogin (fun a b => a == b) "TOK" 0 " 1234" c7Store).2 =
      .loggedIn "TOK" ∧
    V1.pinLogin (fun a b => a == b) "TOK" 0 " 1234" c7Store ≠
      (c7Store, .pinMustBe4Digits) := by
  refine ⟨by decide, by decide, by decide⟩

/-! ## Claim C8 -/

/-- C8 (amended): in part_002, `resetOne(d)` followed by `getOne(d)`
yields the record with empty fields and null `updatedAt` for every valid
department; in src/server.js the reset also empties the fields but
stamps `updatedAt` with the reset time instead of null. -/
theorem c8_reset_then_get_amended :
    (∀ (s : V2.Store) (d : String), V2.ensureService d = true →
       V2.getOne d ((V2.resetOne d s).1) =
         .ok { donnees := .vobj [], updatedAt := none }) ∧
    (∀ (data : SJ.Data) (d : String) (nowIso : String),
       SJ.getOne d (SJ.resetOne d nowIso data) =
         { inner := [], updatedAt := some nowIso }) := by
  constructor
  · intro s d h
    simp [V2.ensureService] at h
    rcases h with (h | h) | h <;> subst h <;> rfl
  · intro data d nowIso
    simp [SJ.getOne, SJ.resetOne, alookup_assocSet]

/-- C8 witness: the amended theorem evaluated on the department "bar"
for both variants. -/
theorem c8_witness :
    V2.ensureService "bar" = true ∧
    V2.getOne "bar"
        ((V2.resetOne "bar"
          { petitdej := { donnees := .vobj [], updatedAt := none },
            bar := { donnees := .vobj [("Coca", .vstr "6")], updatedAt := some "t0" },
            entretien := { donnees := .vobj [], updatedAt := none } }).1) =
      .ok { donnees := .vobj [], updatedAt := none } ∧
    SJ.getOne "bar" (SJ.resetOne "bar" "tR" [("bar", SJ.emptyRecord)]) =
      { inner := [], updatedAt := some "tR" } :=
  ⟨by decide,
   c8_reset_then_get_amended.1
     { petitdej := { donnees := .vobj [], updatedAt := none },
       bar := { donnees := .vobj [("Coca", .vstr "6")], updatedAt := some "t0" },
       entretien := { donnees := .vobj [], updatedAt := none } } "bar" (by decide),
   c8_reset_then_get_amended.2 [("bar", SJ.emptyRecord)] "bar" "tR"⟩

/-- The commandes.json content used to refute C8 on src/server.js. -/
def c8Data : SJ.Data := [("bar", SJ.emptyRecord)]

/-- C8 counterexample: after the src/server.js reset of "bar", `getOne`
returns a record whose `updatedAt` is the reset timestamp, not null. -/
theorem c8_counterexample :
    (SJ.getOne "bar" (SJ.resetOne "bar" "2024-05-01T10:00:00.000Z" c8Data)).updatedAt =
      some "2024-05-01T10:00:00.000Z" ∧
    (some "2024-05-01T10:00:00.000Z" : Option String) ≠ none :=
  ⟨rfl, by decide⟩

/-! ## Claim C9 -/

/-- C9: a setup request whose well-formed PIN matches (via the bcrypt
comparison) the hash of an already-stored credential fails with
`PIN_ALREADY_EXISTS` and adds no credential, even below capacity and
with the correct setup secret (part_001 lines 331–340). -/
theorem c9_setup_duplicate_pin (cfgSecret : String)
    (compare : String → String → Bool)
    (newPinId newHash nowIso : String) (nowMs : Int) (bodySecret bodyPin : String)
    (s : V1.Store)
    (hcfg : cfgSecret ≠ "") (hsec : bodySecret = cfgSecret)
    (hpin : isFourDigits (jsTrim bodyPin) = true)
    (hcap : s.pins.length < V1.MAX_PINS)
    (hdup : ∃ p ∈ s.pins, compare (jsTrim bodyPin) p.2.hash = true) :
    V1.pinSetup cfgSecret compare newPinId newHash nowIso nowMs bodySecret bodyPin s =
      (s, .pinAlreadyExists) := by
  subst hsec
  have hany : s.pins.any (fun p => compare (jsTrim bodyPin) p.2.hash) = true := by
    rcases hdup with ⟨p, hp, hc⟩
    exact List.any_eq_true.mpr ⟨p, hp, hc⟩
  simp [V1.pinSetup, hcfg, hpin, hany, Nat.not_le.mpr hcap]

/-- Store holding one credential, for the C9 witness (`bcrypt.compare`
modelled by equality with a plaintext-stored hash). -/
def c9Store : V1.Store :=
  { V1.defaultData with pins := [("id1", { hash := "1234", createdAt := "c" })] }

/-- C9 witness: the theorem evaluated on a correct secret, a well-formed
PIN and a store already holding a credential with that PIN. -/
theorem c9_witness :
    c9Store.pins.length < V1.MAX_PINS ∧
    V1.pinSetup "S3CRET" (fun a b => a == b) "idN" "hN" "t" 0 "S3CRET" "1234" c9Store =
      (c9Store, .pinAlreadyExists) :=
  ⟨by decide,
   c9_setup_duplicate_pin "S3CRET" (fun a b => a == b) "idN" "hN" "t" 0 "S3CRET" "1234"
     c9Store (by decide) rfl (by decide) (by decide)
     ⟨("id1", { hash := "1234", createdAt := "c" }), by decide, by decide⟩⟩

/-! ## Claim C10 -/

/-- C10: part_001 sessions expire inclusively at the boundary —
`getSession` treats a session with `expiresAt <= now` as anonymous —
and the purge performed by every `saveData` keeps exactly the sessions
whose `expiresAt` is strictly greater than the time of the save. -/
theorem c10_session_expiry_boundary :
    (∀ (nowMs : Int) (cookieToken : Option String) (s : V1.Store) (tok : String)
       (sess : Session),
       cookieToken = some tok →
       alookup tok s.sessions = some sess →
       sess.expiresAt ≤ nowMs →
       V1.getSession nowMs cookieToken s = none) ∧
    (∀ (nowMs : Int) (s : V1.Store) (p : String × Session),
       p ∈ (V1.saveData nowMs s).sessions → nowMs < p.2.expiresAt) := by
  constructor
  · intro nowMs ct s tok sess hct hl hexp
    subst hct
    unfold V1.getSession
    by_cases ht : tok = ""
    · simp [ht]
    · simp [ht, hl, hexp]
  · intro nowMs s p hp
    have := (List.mem_filter.mp hp).2
    simpa using this

/-- Store with one boundary session and one live session, for the C10
witness. -/
def c10Store : V1.Store :=
  { V1.defaultData with
      sessions := [("t", { pinId := "id", expiresAt := 100 }),
                   ("u", { pinId := "id", expiresAt := 200 })] }

/-- C10 witness: the theorem evaluated at `now = 100`: the session
expiring exactly now is rejected, and the session surviving the purge
satisfies the strict bound. -/
theorem c10_witness :
    V1.getSession 100 (some "t") c10Store = none ∧
    (100 : Int) < 200 :=
  ⟨c10_session_expiry_boundary.1 100 (some "t") c10Store "t"
     { pinId := "id", expiresAt := 100 } rfl rfl (by decide),
   c10_session_expiry_boundary.2 100 c10Store ("u", { pinId := "id", expiresAt := 200 })
     (by decide)⟩
